import Mathlib

/-!
Verification of the traffic-flow intersection simulation (`main.py`).

The development is a shallow embedding of the simulation core:

* Python floats are modelled by `ℚ` (the program only ever combines decimal
  literals with `+`, `-`, `*`, `/`, `abs`, `max` and comparisons).
* The pseudo-random draws (`random.random()`, `random.expovariate`) are
  passed in explicitly: the per-tick speed jitter is a parameter
  `r ∈ [0,1)` with `movement_per_step = base_movement * (0.8 + 0.4*r)`,
  the vehicle-length draw and the turn draw are booleans, and the arrival
  times are abstracted into nondeterministic interleaving of `Step`s.
* The `simpy` event loop is abstracted into the `Step` relation: spawn
  attempts (one iteration of `generate_vehicles`), a motion tick (one call
  of `TrafficSimulation.update`), and a light-phase transition (one segment
  of `TrafficLight.run`) interleave nondeterministically.

Every definition mirrors the corresponding construct of `main.py`; line
numbers in comments refer to that file.
-/

namespace Traffic

/-! ## Configuration constants (main.py lines 8-22) -/

def NUM_LANES : ℕ := 1

def LANE_WIDTH : ℚ := 1/25

def GREEN_DURATION : ℚ := 30

def YELLOW_DURATION : ℚ := 2

def OBSERVATION_ZONE_LENGTH : ℚ := 1/2

def AVERAGE_SPEED : ℚ := 60

def TRAFFIC_VOLUME : ℚ := 25

def CAR_LENGTH : ℚ := 1/25

def MINIMUM_FOLLOW_DISTANCE : ℚ := 1/20 + CAR_LENGTH/2

def TURN_PROBABILITY : ℚ := 7/10

def MOVEMENT_THRESHOLD : ℚ := 1/100000

/-! ## Directions and the traffic light -/

inductive Direction
  | north
  | south
  | east
  | west
  deriving Repr, DecidableEq

/-- Iteration order of the `self.vehicles` dict (insertion order, lines 129-134). -/
def directionOrder : List Direction := [.north, .south, .east, .west]

/-- A dict keyed by the four fixed direction strings (`self.vehicles`,
`self.stats`): one entry per direction, no dynamic keys. -/
structure DirMap (α : Type) where
  north : α
  south : α
  east : α
  west : α
  deriving Repr, DecidableEq

/-- Dict lookup. -/
def DirMap.get {α : Type} (m : DirMap α) : Direction → α
  | .north => m.north
  | .south => m.south
  | .east => m.east
  | .west => m.west

/-- Dict entry assignment. -/
def DirMap.set {α : Type} (m : DirMap α) (d : Direction) (x : α) : DirMap α :=
  match d with
  | .north => { m with north := x }
  | .south => { m with south := x }
  | .east => { m with east := x }
  | .west => { m with west := x }

inductive LightColor
  | red
  | yellow
  | green
  deriving Repr, DecidableEq

/-- The `states` dict of `TrafficLight`: one colour per signal group. -/
structure LightState where
  NS : LightColor
  EW : LightColor
  deriving Repr, DecidableEq

/-- The four stable configurations of `TrafficLight.run`'s infinite loop
(lines 107-123): between consecutive `yield env.timeout(...)` points the
`states` dict holds exactly one of these four values. -/
inductive LightPhase
  | ew_green
  | ew_yellow
  | ns_green
  | ns_yellow
  deriving Repr, DecidableEq

/-- The `states` value held during each phase (lines 110, 114, 118, 122). -/
def LightPhase.states : LightPhase → LightState
  | .ew_green  => ⟨.red, .green⟩
  | .ew_yellow => ⟨.red, .yellow⟩
  | .ns_green  => ⟨.green, .red⟩
  | .ns_yellow => ⟨.yellow, .red⟩

/-- Phase transition fired when the current phase's timeout elapses. -/
def LightPhase.next : LightPhase → LightPhase
  | .ew_green  => .ew_yellow
  | .ew_yellow => .ns_green
  | .ns_green  => .ns_yellow
  | .ns_yellow => .ew_green

/-- Reachable phases of the light controller: the constructor sets
`{NS: red, EW: green}` (line 104), which is also the first configuration of
the `run` loop; thereafter phases advance cyclically. -/
inductive ReachablePhase : LightPhase → Prop
  | init : ReachablePhase .ew_green
  | step {p : LightPhase} : ReachablePhase p → ReachablePhase p.next

/-- Signal group of a direction (lines 191, 270). -/
def lightGroupColor (ls : LightState) (d : Direction) : LightColor :=
  match d with
  | .north | .south => ls.NS
  | .east | .west => ls.EW

/-! ## Vehicles -/

/-- State of one `Vehicle` object.  `perp` is the secondary coordinate:
the `x` attribute for north/south vehicles and the `y` attribute for
east/west vehicles. -/
structure Vehicle where
  id : ℕ
  direction : Direction
  lane : ℕ
  wait_start : Option ℚ
  stop_count : ℕ
  is_waiting : Bool
  last_position : ℚ
  length : ℚ
  position : ℚ
  perp : ℚ
  speed : ℚ
  crossed_intersection : Bool
  completed : Bool
  turning_right : Bool
  turn_progress : ℚ
  deriving Repr, DecidableEq

/-- Shallow embedding of `Vehicle.__init__` (lines 25-66).  The two
`random.random()` draws are passed in as booleans: `isLong` is the 5%
long-vehicle draw (line 35) and `wantsTurn` is the turn-probability draw
(line 63). -/
def mkVehicle (id : ℕ) (direction : Direction) (lane : ℕ)
    (isLong wantsTurn : Bool) : Vehicle :=
  let lane_offset : ℚ := 1/50 + (lane : ℚ) * (1/25)
  let pospair : ℚ × ℚ :=
    match direction with
    | .north => (OBSERVATION_ZONE_LENGTH, -lane_offset)
    | .south => (-OBSERVATION_ZONE_LENGTH, lane_offset)
    | .east  => (OBSERVATION_ZONE_LENGTH, lane_offset)
    | .west  => (-OBSERVATION_ZONE_LENGTH, -lane_offset)
  { id := id
    direction := direction
    lane := lane
    wait_start := none
    stop_count := 0
    is_waiting := false
    last_position := pospair.1
    length := if isLong then CAR_LENGTH * 2 else CAR_LENGTH
    position := pospair.1
    perp := pospair.2
    speed := 1/100
    crossed_intersection := false
    completed := false
    turning_right := decide (lane = NUM_LANES - 1) && wantsTurn
    turn_progress := 0 }

/-- Embedding of `Vehicle.update_waiting_status` (lines 68-82); the debug
prints are side-effect free and dropped. -/
def Vehicle.update_waiting_status (v : Vehicle) (current_position : ℚ) : Vehicle :=
  let has_moved : Bool := decide (|current_position - v.last_position| > MOVEMENT_THRESHOLD)
  { v with
    is_waiting := !has_moved
    last_position := current_position }

/-! ## Per-direction statistics -/

/-- State of one `TrafficStats` object (lines 84-99).  The
`deque(maxlen=50)` is a list that evicts at the front on overflow, and the
`current_waiting` dict is an association list keyed by vehicle id. -/
structure TrafficStats where
  completed_count : ℕ
  wait_times : List ℚ
  waiting_count : ℕ
  current_waiting : List (ℕ × ℚ)
  deriving Repr, DecidableEq

def initStats : TrafficStats := ⟨0, [], 0, []⟩

/-- Append to a `deque(maxlen=cap)`: the new element always enters at the
right; the oldest elements are evicted from the left when over capacity. -/
def dequeAppend (cap : ℕ) (l : List ℚ) (x : ℚ) : List ℚ :=
  let l' := l ++ [x]
  if cap < l'.length then l'.drop (l'.length - cap) else l'

def WAIT_TIMES_MAXLEN : ℕ := 50

/-- Embedding of `TrafficStats.start_waiting` (lines 91-93). -/
def TrafficStats.start_waiting (st : TrafficStats) (vehicle_id : ℕ) (time : ℚ) :
    TrafficStats :=
  if (List.lookup vehicle_id st.current_waiting).isNone then
    { st with current_waiting := st.current_waiting ++ [(vehicle_id, time)] }
  else st

/-- Embedding of `TrafficStats.stop_waiting` (lines 95-99). -/
def TrafficStats.stop_waiting (st : TrafficStats) (vehicle_id : ℕ) (current_time : ℚ) :
    TrafficStats :=
  match List.lookup vehicle_id st.current_waiting with
  | some start =>
      { st with
        wait_times := dequeAppend WAIT_TIMES_MAXLEN st.wait_times (current_time - start)
        current_waiting := st.current_waiting.filter (fun p => !(p.1 == vehicle_id)) }
  | none => st

/-! ## Motion engine: one vehicle within `TrafficSimulation.update`
(lines 278-391).  Vehicles of a lane are processed in list order over a
copy `vehicles[:]` of the lane while removals mutate the live list, so the
`vehicles[i-1]` read of the follow-distance gate is modelled through the
live list explicitly. -/

/-- Movement conversion of line 256. -/
def base_movement : ℚ := AVERAGE_SPEED / 3600

/-- Crossing threshold of lines 307 and 336: `0.1 * (NUM_LANES/2)`. -/
def CROSSING_THRESHOLD : ℚ := 1/10 * ((NUM_LANES : ℚ)/2)

/-- Stop line of lines 336 and 379: `0.1 * (NUM_LANES/2) + CAR_LENGTH`. -/
def STOP_POSITION : ℚ := CROSSING_THRESHOLD + CAR_LENGTH

/-- Per-lane processing context: the simulation clock, the `can_move`
flag from the light state (line 272), the lane index and the direction. -/
structure LaneCtx where
  now : ℚ
  can_move : Bool
  lane_idx : ℕ
  dir : Direction
  deriving Repr, DecidableEq

/-- Lines 286-290: a vehicle may enter the intersection when the light is
green, or when it turns right from the rightmost lane. -/
def allow_movement (ctx : LaneCtx) (v : Vehicle) : Bool :=
  ctx.can_move || (v.turning_right && decide (ctx.lane_idx = NUM_LANES - 1))

/-- Lines 292-295: start wait-time tracking for a blocked uncrossed vehicle
close to the intersection. -/
def preWaitTrack (now : ℚ) (allow : Bool) (v : Vehicle) : Vehicle :=
  if !allow && !v.crossed_intersection
      && decide (|v.position| < MINIMUM_FOLLOW_DISTANCE) then
    if v.wait_start = none then { v with wait_start := some now } else v
  else v

/-- Line 298: completion condition. -/
def completedNow (v : Vehicle) : Bool :=
  decide (OBSERVATION_ZONE_LENGTH ≤ |v.position|) && v.crossed_intersection

/-- Lines 299-302: fold the pending wait time into the rolling window and
bump the completed counter. -/
def finalizeCompleted (now : ℚ) (v : Vehicle) (st : TrafficStats) : TrafficStats :=
  let st :=
    match v.wait_start with
    | some ws =>
        { st with wait_times := dequeAppend WAIT_TIMES_MAXLEN st.wait_times (now - ws) }
    | none => st
  { st with completed_count := st.completed_count + 1 }

/-- Line 307: the vehicle is at the crossing threshold and has not crossed. -/
def inCrossZone (v : Vehicle) : Bool :=
  decide (|v.position| ≤ CROSSING_THRESHOLD) && !v.crossed_intersection

/-- Lines 311-313: mark the vehicle as crossed when movement is allowed. -/
def crossUpdate (allow : Bool) (v : Vehicle) : Vehicle :=
  if inCrossZone v && allow then
    { v with crossed_intersection := true, wait_start := none }
  else v

/-- Lines 314-315: the vehicle holds at the crossing threshold. -/
def crossBlocked (allow : Bool) (v : Vehicle) : Bool :=
  inCrossZone v && !allow

/-- What the follow-distance gate (lines 317-333) sees as `vehicles[i-1]`:
nothing for the lane head (`i = 0`), an `IndexError` when the live list has
shrunk below `i-1` elements, or a concrete vehicle. -/
inductive GateInfo
  | front
  | indexErr
  | ahead (w : Vehicle)
  deriving Repr, DecidableEq

/-- Lines 317-333: the follow-distance gate.  Movement is blocked when the
gap to `vehicles[i-1]` is under the minimum follow distance, unless that
vehicle is a turning vehicle that has crossed; an `IndexError` also blocks
(`except IndexError: continue`). -/
def followBlocked (gi : GateInfo) (v : Vehicle) : Bool :=
  match gi with
  | .front => false
  | .indexErr => true
  | .ahead vehicle_ahead =>
      let min_follow := 1/20 + max v.length vehicle_ahead.length / 2
      let within_following_distance :=
        decide (min_follow ≤ |v.position - vehicle_ahead.position|)
        || (vehicle_ahead.turning_right && vehicle_ahead.crossed_intersection)
      !within_following_distance

/-- Lines 335-339: an uncrossed vehicle near the intersection stops while
movement is not allowed. -/
def stopBlocked (allow : Bool) (v : Vehicle) : Bool :=
  !v.crossed_intersection && decide (|v.position| < STOP_POSITION) && !allow

/-- Lateral lane coordinate assigned to a turning vehicle: `0.02 + lane_idx*0.04`
(lines 345, 353, 361, 369). -/
def laneOffsetPos (lane_idx : ℕ) : ℚ := 1/50 + (lane_idx : ℚ) * (1/25)

/-- Lines 341-373: the movement step.  Returns the vehicle after moving and
whether it was removed because its turn reached the boundary. -/
def moveVehicle (dir : Direction) (lane_idx : ℕ) (movement_per_step : ℚ)
    (v : Vehicle) : Vehicle × Bool :=
  match dir with
  | .north =>
      if v.turning_right && v.crossed_intersection then
        let v := { v with perp := v.perp - movement_per_step
                          position := laneOffsetPos lane_idx }
        (v, decide (OBSERVATION_ZONE_LENGTH ≤ |v.perp|))
      else ({ v with position := v.position - movement_per_step }, false)
  | .south =>
      if v.turning_right && v.crossed_intersection then
        let v := { v with perp := v.perp + movement_per_step
                          position := -laneOffsetPos lane_idx }
        (v, decide (OBSERVATION_ZONE_LENGTH ≤ |v.perp|))
      else ({ v with position := v.position + movement_per_step }, false)
  | .east =>
      if v.turning_right && v.crossed_intersection then
        let v := { v with perp := v.perp + movement_per_step
                          position := laneOffsetPos lane_idx }
        (v, decide (OBSERVATION_ZONE_LENGTH ≤ |v.perp|))
      else ({ v with position := v.position - movement_per_step }, false)
  | .west =>
      if v.turning_right && v.crossed_intersection then
        let v := { v with perp := v.perp - movement_per_step
                          position := -laneOffsetPos lane_idx }
        (v, decide (OBSERVATION_ZONE_LENGTH ≤ |v.perp|))
      else ({ v with position := v.position + movement_per_step }, false)

/-- Lines 375-391: refresh `is_waiting` from the new position and keep the
wait-time tracking of the direction's stats in sync.  Runs even for a
vehicle that the turn branch just removed (the source mutates the object
after `vehicles.remove`), which can still touch the stats. -/
def postBookkeeping (now : ℚ) (st : TrafficStats) (v : Vehicle) :
    Vehicle × TrafficStats :=
  let v := v.update_waiting_status v.position
  let is_at_intersection := decide (|v.position| ≤ STOP_POSITION)
  if v.is_waiting && !v.crossed_intersection && is_at_intersection then
    if v.wait_start = none then
      ({ v with wait_start := some now }, st.start_waiting v.id now)
    else (v, st)
  else
    if v.wait_start = none then (v, st)
    else ({ v with wait_start := none }, st.stop_waiting v.id now)

/-- Processing of one vehicle of the per-lane loop (lines 278-391), with the
follow-distance gate's `vehicles[i-1]` passed in as `gi`.  Returns `none`
when the vehicle was removed (completion, or turn reaching the boundary)
together with the direction's updated stats. -/
def tickVehicle (ctx : LaneCtx) (r : ℚ) (gi : GateInfo) (v0 : Vehicle)
    (st : TrafficStats) : Option Vehicle × TrafficStats :=
  let movement_per_step := base_movement * (4/5 + 2/5 * r)
  let allow := allow_movement ctx v0
  let v := preWaitTrack ctx.now allow v0
  if completedNow v then (none, finalizeCompleted ctx.now v st)
  else if crossBlocked allow v then (some v, st)
  else
    let v := crossUpdate allow v
    if followBlocked gi v then (some v, st)
    else if stopBlocked allow v then (some v, st)
    else
      let mv := moveVehicle ctx.dir ctx.lane_idx movement_per_step v
      let bk := postBookkeeping ctx.now st mv.1
      (if mv.2 then none else some bk.1, bk.2)

/-- The `vehicles[i-1]` lookup of line 320 against the live lane list. -/
def gateInfoOf (live : List Vehicle) (i : ℕ) : GateInfo :=
  if i = 0 then .front
  else
    match live[i-1]? with
    | none => .indexErr
    | some w => .ahead w

/-- The per-lane loop of `update` (line 278): iterate over a copy of the
lane in order while removals and field updates mutate the live list.  `i`
is the index in the copy, `removed` counts removals so far (so the current
vehicle sits at `i - removed` in the live list), and `rs i` is the speed
jitter drawn for the `i`-th vehicle (line 283). -/
def processVehicles (ctx : LaneCtx) (rs : ℕ → ℚ) :
    List Vehicle → ℕ → ℕ → List Vehicle → TrafficStats →
    List Vehicle × TrafficStats
  | [], _, _, live, st => (live, st)
  | v0 :: rest, i, removed, live, st =>
      let j := i - removed
      let allow := allow_movement ctx v0
      let v2 := crossUpdate allow (preWaitTrack ctx.now allow v0)
      let gi := gateInfoOf (live.set j v2) i
      match tickVehicle ctx (rs i) gi v0 st with
      | (none, st') =>
          processVehicles ctx rs rest (i+1) (removed+1) (live.eraseIdx j) st'
      | (some v', st') =>
          processVehicles ctx rs rest (i+1) removed (live.set j v') st'

/-- Lines 274-391: process every lane of one direction in lane order.
`rs lane_idx i` is the jitter draw for vehicle `i` of lane `lane_idx`. -/
def processLanes (now : ℚ) (can_move : Bool) (d : Direction) (rs : ℕ → ℕ → ℚ) :
    ℕ → List (List Vehicle) → TrafficStats →
    List (List Vehicle) × TrafficStats
  | _, [], st => ([], st)
  | lane_idx, lane :: rest, st =>
      let ctx : LaneCtx := ⟨now, can_move, lane_idx, d⟩
      let res := processVehicles ctx (rs lane_idx) lane 0 0 lane st
      let res2 := processLanes now can_move d rs (lane_idx+1) rest res.2
      (res.1 :: res2.1, res2.2)

/-! ## Statistics recomputation (`TrafficSimulation.update_stats`, lines 182-228) -/

def INTERSECTION_ZONE : ℚ := 3/20

/-- The inner vehicle loop of `update_stats` (lines 198-225): count waiting
vehicles of a lane, threading `last_waiting_pos` (stored as `abs(position)`
of the last counted vehicle). -/
def laneWaitingCount (is_red : Bool) (lane_idx : ℕ) :
    List Vehicle → Option ℚ → ℕ
  | [], _ => 0
  | vehicle :: rest, last_waiting_pos =>
      let is_in_zone := decide (|vehicle.position| ≤ INTERSECTION_ZONE)
      let is_right_turner :=
        vehicle.turning_right && decide (lane_idx = NUM_LANES - 1)
      let case1 :=
        is_in_zone && is_red && !is_right_turner && !vehicle.crossed_intersection
      let case2 : Bool :=
        match last_waiting_pos with
        | some lp =>
            let dist_to_prev := abs (abs vehicle.position - abs lp)
            let min_spacing :=
              MINIMUM_FOLLOW_DISTANCE + max vehicle.length CAR_LENGTH / 2
            decide (dist_to_prev ≤ min_spacing)
        | none => false
      if case1 || (!case1 && case2) then
        1 + laneWaitingCount is_red lane_idx rest (some |vehicle.position|)
      else
        laneWaitingCount is_red lane_idx rest last_waiting_pos

/-- Lines 194-225: `waiting_count` accumulates across all lanes of one
direction while `last_waiting_pos` resets per lane. -/
def dirWaitingCount (is_red : Bool) : ℕ → List (List Vehicle) → ℕ
  | _, [] => 0
  | lane_idx, lane :: rest =>
      laneWaitingCount is_red lane_idx lane none
        + dirWaitingCount is_red (lane_idx+1) rest

/-- Recompute one direction's stats record (body of the loop at line 184). -/
def updateStatsDir (light : LightState) (vehicles : DirMap (List (List Vehicle)))
    (stats : DirMap TrafficStats) (d : Direction) : TrafficStats :=
  let is_red := lightGroupColor light d == .red
  { stats.get d with waiting_count := dirWaitingCount is_red 0 (vehicles.get d) }

/-- Embedding of `update_stats` (lines 182-228): recompute each direction's
`waiting_count` from scratch; all other stats fields are untouched. -/
def update_stats (light : LightState) (vehicles : DirMap (List (List Vehicle)))
    (stats : DirMap TrafficStats) : DirMap TrafficStats :=
  ⟨updateStatsDir light vehicles stats .north,
   updateStatsDir light vehicles stats .south,
   updateStatsDir light vehicles stats .east,
   updateStatsDir light vehicles stats .west⟩

/-! ## Arrival generator (`generate_vehicles`, lines 230-252) -/

/-- Line 234: total number of vehicles across all lanes of all directions. -/
def totalVehicleCount (vehicles : DirMap (List (List Vehicle))) : ℕ :=
  (directionOrder.map (fun d => ((vehicles.get d).map List.length).sum)).sum

/-- One iteration of the `generate_vehicles` loop body (lines 233-249): the
spawn decision for one (direction, lane) generator, given the global
vehicle count and the generator's current lane contents and id counter.
Returns the spawned vehicle (if any) and the updated id counter. -/
def generate_vehicle_attempt (num_vehicles : ℕ) (laneList : List Vehicle)
    (id_counter : ℕ) (d : Direction) (lane : ℕ) (isLong wantsTurn : Bool) :
    Option Vehicle × ℕ :=
  if (num_vehicles : ℚ) ≤ TRAFFIC_VOLUME * (13/10) then
    match laneList.getLast? with
    | none => (some (mkVehicle id_counter d lane isLong wantsTurn), id_counter + 1)
    | some last_vehicle =>
        if MINIMUM_FOLLOW_DISTANCE
            < |(|last_vehicle.position|) - OBSERVATION_ZONE_LENGTH| then
          (some (mkVehicle id_counter d lane isLong wantsTurn), id_counter + 1)
        else (none, id_counter)
  else (none, id_counter)

/-! ## Whole-simulation state and the driver -/

/-- The mutable state of `TrafficSimulation`: light phase, the per-direction
lists of lanes, the per-direction stats, the per-(direction, lane) id
counters of the generators, and the simpy clock. -/
structure SimState where
  phase : LightPhase
  vehicles : DirMap (List (List Vehicle))
  stats : DirMap TrafficStats
  id_counters : DirMap (List ℕ)
  now : ℚ
  deriving Repr

/-- State after `TrafficSimulation.__init__` (lines 126-146): empty lanes,
zeroed stats and id counters (one counter per lane of each direction),
light at `{NS: red, EW: green}`. -/
def initState : SimState where
  phase := .ew_green
  vehicles := ⟨List.replicate NUM_LANES [], List.replicate NUM_LANES [],
    List.replicate NUM_LANES [], List.replicate NUM_LANES []⟩
  stats := ⟨initStats, initStats, initStats, initStats⟩
  id_counters := ⟨List.replicate NUM_LANES 0, List.replicate NUM_LANES 0,
    List.replicate NUM_LANES 0, List.replicate NUM_LANES 0⟩
  now := 0

/-- Line 272: `can_move = light_state not in ["red", "yellow"]`. -/
def can_move_of (phase : LightPhase) (d : Direction) : Bool :=
  let light_state := lightGroupColor phase.states d
  !(light_state == .red || light_state == .yellow)

/-- Observable events of one `update()` call, used to state where the
statistics recomputation (line 393) and the `env.step()` clock advance
(line 394) sit relative to the per-direction motion loops. -/
inductive TickEvent
  | motion (d : Direction)
  | statsRecompute
  | clockStep
  deriving Repr, DecidableEq

/-- Embedding of one call of `TrafficSimulation.update` (lines 254-394).
The loop of lines 259-267 only re-initialises `last_position` when it is
`None`, which never happens after `Vehicle.__init__`, so it is a no-op.
For each direction in dict order the per-lane motion loop runs, and then —
still inside the direction loop, per the source's indentation of lines
393-394 — `update_stats()` recomputes every direction's waiting count and
`env.step()` advances the simpy clock (by `δ d ≥ 0`, one fired event).
The returned event list records the order of these actions.  The body of
the direction loop is `updateDirection`; `applyUpdate` folds it over the
four directions in dict order. -/
def updateDirection (rs : Direction → ℕ → ℕ → ℚ) (δ : Direction → ℚ)
    (acc : SimState × List TickEvent) (d : Direction) :
    SimState × List TickEvent :=
  let s := acc.1
  let res := processLanes s.now (can_move_of s.phase d) d (rs d) 0
    (s.vehicles.get d) (s.stats.get d)
  let s := { s with
    vehicles := s.vehicles.set d res.1
    stats := s.stats.set d res.2 }
  let s := { s with stats := update_stats s.phase.states s.vehicles s.stats }
  let s := { s with now := s.now + δ d }
  (s, acc.2 ++ [.motion d, .statsRecompute, .clockStep])

/-- One call of `TrafficSimulation.update`: the direction loop of line 269. -/
def applyUpdate (rs : Direction → ℕ → ℕ → ℚ) (δ : Direction → ℚ)
    (s : SimState) : SimState × List TickEvent :=
  directionOrder.foldl (updateDirection rs δ) (s, ([] : List TickEvent))

/-- Draw validity: `random.random()` yields values in `[0, 1)`. -/
def validDraws (rs : Direction → ℕ → ℕ → ℚ) : Prop :=
  ∀ d i k, 0 ≤ rs d i k ∧ rs d i k < 1

/-- One firing of a generator event: run the spawn decision for the given
(direction, lane) against the current state and append the new vehicle to
the tail of its lane (lines 239-249). -/
def applySpawn (d : Direction) (lane : ℕ) (isLong wantsTurn : Bool)
    (s : SimState) : SimState :=
  let num_vehicles := totalVehicleCount s.vehicles
  let laneList := (s.vehicles.get d).getD lane []
  let res := generate_vehicle_attempt num_vehicles laneList
    ((s.id_counters.get d).getD lane 0) d lane isLong wantsTurn
  match res.1 with
  | none => s
  | some v =>
      { s with
        vehicles := s.vehicles.set d ((s.vehicles.get d).set lane (laneList ++ [v]))
        id_counters := s.id_counters.set d ((s.id_counters.get d).set lane res.2) }

/-- Atomic transitions of the simulation: a motion tick (one `update()`
call), one generator firing, or one light-phase transition.  The simpy
event queue's scheduling is abstracted into nondeterministic interleaving. -/
inductive Step : SimState → SimState → Prop
  | tick {s : SimState} (rs : Direction → ℕ → ℕ → ℚ) (δ : Direction → ℚ)
      (hr : validDraws rs) (hδ : ∀ d, 0 ≤ δ d) :
      Step s (applyUpdate rs δ s).1
  | spawn {s : SimState} (d : Direction) (lane : ℕ) (isLong wantsTurn : Bool) :
      Step s (applySpawn d lane isLong wantsTurn s)
  | light {s : SimState} : Step s { s with phase := s.phase.next }

/-- States reachable from the freshly constructed simulation. -/
inductive Reachable : SimState → Prop
  | init : Reachable initState
  | step {s s' : SimState} : Reachable s → Step s s' → Reachable s'

/-! ## Derived notions used by the claims -/

/-- Sign of the approach coordinate before crossing: north and east
vehicles are created at `+OBSERVATION_ZONE_LENGTH` and move with
decreasing `position`, south and west at the negative boundary with
increasing `position` (lines 44-55, 342-373). -/
def dirSign : Direction → ℚ
  | .north => 1
  | .south => -1
  | .east  => 1
  | .west  => -1

/-- Minimum follow distance used by the gate (line 322): `0.05` plus half
the larger of the two vehicles' lengths. -/
def minFollowPair (a b : Vehicle) : ℚ := 1/20 + max a.length b.length / 2

/-- Spacing check of the spec for one lane: for any two consecutive
vehicles A (ahead) and B (behind), if neither is a turning vehicle that
has crossed, their gap is at least the minimum follow distance. -/
def lanePairsOK : List Vehicle → Bool
  | [] => true
  | [_] => true
  | a :: b :: rest =>
      ((a.turning_right && a.crossed_intersection)
        || (b.turning_right && b.crossed_intersection)
        || decide (minFollowPair a b ≤ |a.position - b.position|))
      && lanePairsOK (b :: rest)

/-- Spacing check over the whole simulation state. -/
def spacingOK (s : SimState) : Bool :=
  directionOrder.all fun d => (s.vehicles.get d).all lanePairsOK

/-- A vehicle is blocked in a tick when it takes one of the three
`continue` branches of `update`: the crossing hold (line 315), the
follow-distance gate (lines 330 and 333), or the red-light stop (line 339). -/
def blockedThisTick (ctx : LaneCtx) (gi : GateInfo) (v0 : Vehicle) : Bool :=
  let allow := allow_movement ctx v0
  let v := preWaitTrack ctx.now allow v0
  !completedNow v
    && (crossBlocked allow v
        || (let v2 := crossUpdate allow v
            followBlocked gi v2 || stopBlocked allow v2))

/-- Inputs visible to one iteration of a single (direction, lane)
generator: the global vehicle count, the lane's contents at that moment,
and the two random draws of `Vehicle.__init__`. -/
structure SpawnContext where
  num_vehicles : ℕ
  laneList : List Vehicle
  isLong : Bool
  wantsTurn : Bool

/-- The vehicles spawned by one (direction, lane) generator across a run,
threading its private `id_counter` (lines 230-249). -/
def generatorRun (d : Direction) (lane : ℕ) :
    List SpawnContext → ℕ → List Vehicle
  | [], _ => []
  | c :: rest, idc =>
      match generate_vehicle_attempt c.num_vehicles c.laneList idc d lane
          c.isLong c.wantsTurn with
      | (some v, idc') => v :: generatorRun d lane rest idc'
      | (none, idc') => generatorRun d lane rest idc'

/-! ## Concrete inputs used by counterexamples and witnesses -/

/-- Lane context: north lane 0 at a red NS light, clock at 0. -/
def ctxRedNorth : LaneCtx := ⟨0, false, 0, .north⟩

/-- A right-turning vehicle that has crossed and whose lateral coordinate
is one step short of the boundary. -/
def turnVehicle : Vehicle :=
  { id := 5, direction := .north, lane := 0, wait_start := none
    stop_count := 0, is_waiting := false, last_position := 1/50
    length := CAR_LENGTH, position := 1/50, perp := -(49/100), speed := 1/100
    crossed_intersection := true, completed := false, turning_right := true
    turn_progress := 0 }

/-- A straight vehicle that has crossed and reached the far boundary. -/
def doneVehicle : Vehicle :=
  { id := 7, direction := .north, lane := 0, wait_start := some 0
    stop_count := 0, is_waiting := false, last_position := -(1/2)
    length := CAR_LENGTH, position := -(1/2), perp := -(1/50), speed := 1/100
    crossed_intersection := true, completed := false, turning_right := false
    turn_progress := 0 }

/-- An uncrossed vehicle waiting at the red light just before the stop
line. -/
def frontVehicle : Vehicle :=
  { id := 0, direction := .north, lane := 0, wait_start := none
    stop_count := 0, is_waiting := false, last_position := 3/50
    length := CAR_LENGTH, position := 3/50, perp := -(1/50), speed := 1/100
    crossed_intersection := false, completed := false, turning_right := false
    turn_progress := 0 }

/-- An uncrossed vehicle following `frontVehicle` at exactly the minimum
follow distance. -/
def rearVehicle : Vehicle :=
  { id := 1, direction := .north, lane := 0, wait_start := none
    stop_count := 0, is_waiting := false, last_position := 13/100
    length := CAR_LENGTH, position := 13/100, perp := -(1/50), speed := 1/100
    crossed_intersection := false, completed := false, turning_right := false
    turn_progress := 0 }

/-- Jitter draws for the reachable spacing-breach trace: every vehicle
moves `0.0196` per tick. -/
def rAll : Direction → ℕ → ℕ → ℚ := fun _ _ _ => 47/50

/-- Jitter draws for the trace's final ticks: the lane head keeps its
draw while the follower draws `0.1` (step `0.014`). -/
def rMix : Direction → ℕ → ℕ → ℚ := fun _ _ k => if k = 0 then 47/50 else 1/10

/-- One motion tick with draws `rAll` and no clock advance. -/
def tickAll (s : SimState) : SimState := (applyUpdate rAll (fun _ => 0) s).1

/-- One motion tick with draws `rMix` and no clock advance. -/
def tickMix (s : SimState) : SimState := (applyUpdate rMix (fun _ => 0) s).1

/-- A generator firing for north lane 0 with both draws false. -/
def northSpawn (s : SimState) : SimState := applySpawn .north 0 false false s

/-- Iterated `rAll` ticks. -/
def iterTickAll : ℕ → SimState → SimState
  | 0, s => s
  | n+1, s => iterTickAll n (tickAll s)

/-- A reachable state violating the spacing invariant: spawn a north
vehicle, approach for 4 ticks, spawn a follower, run 16 more uniform
ticks, then three ticks in which the leader reaches the red-light stop
zone and halts while the follower closes in: the follower passes the
follow-distance gate at a gap of exactly `0.07` and then moves `0.014`,
ending the tick at gap `0.056 < 0.07`. -/
def breachState : SimState :=
  tickMix (tickMix (tickMix (iterTickAll 16 (northSpawn
    (iterTickAll 4 (northSpawn initState))))))

/-- State after the first firing of the north and south lane-0 generators. -/
def twoSpawnState : SimState :=
  applySpawn .south 0 false false (applySpawn .north 0 false false initState)

/-- Positional invariant of a vehicle in a lane of direction `d`: before
crossing, the vehicle sits on the approach side of its direction and
within the observation zone. -/
def laneInv (d : Direction) (v : Vehicle) : Prop :=
  v.crossed_intersection = false →
    0 ≤ dirSign d * v.position ∧ |v.position| ≤ OBSERVATION_ZONE_LENGTH

/-- The positional invariant over a whole simulation state: every vehicle
of every lane satisfies `laneInv` for its lane's direction. -/
def SimInv (s : SimState) : Prop :=
  ∀ d : Direction, ∀ lane ∈ s.vehicles.get d, ∀ v ∈ lane, laneInv d v

/-- An uncrossed northbound vehicle in free flow mid-approach. -/
def freeVehicle : Vehicle :=
  { id := 2, direction := .north, lane := 0, wait_start := none
    stop_count := 0, is_waiting := false, last_position := 3/10
    length := CAR_LENGTH, position := 3/10, perp := -(1/50), speed := 1/100
    crossed_intersection := false, completed := false, turning_right := false
    turn_progress := 0 }

/-- The state of `freeVehicle` after one unblocked tick at jitter 0. -/
def freeVehicleMoved : Vehicle :=
  { freeVehicle with position := 43/150, last_position := 43/150 }

/-- Dict assignment followed by lookup. -/
theorem DirMap.get_set {α : Type} (m : DirMap α) (d d' : Direction) (x : α) :
    (m.set d x).get d' = if d' = d then x else m.get d' := by
  cases d <;> cases d' <;> simp [DirMap.get, DirMap.set]

/-! ### Unfolding lemmas for the recursive definitions (used to evaluate
the embedding on concrete states) -/

theorem processVehicles_nil (ctx : LaneCtx) (rs : ℕ → ℚ) (i removed : ℕ)
    (live : List Vehicle) (st : TrafficStats) :
    processVehicles ctx rs [] i removed live st = (live, st) := rfl

theorem processLanes_nil (now : ℚ) (can_move : Bool) (d : Direction)
    (rs : ℕ → ℕ → ℚ) (li : ℕ) (st : TrafficStats) :
    processLanes now can_move d rs li [] st = ([], st) := rfl

theorem processLanes_cons (now : ℚ) (can_move : Bool) (d : Direction)
    (rs : ℕ → ℕ → ℚ) (li : ℕ) (lane : List Vehicle)
    (rest : List (List Vehicle)) (st : TrafficStats) :
    processLanes now can_move d rs li (lane :: rest) st
      = (((processVehicles ⟨now, can_move, li, d⟩ (rs li) lane 0 0 lane st).1
            :: (processLanes now can_move d rs (li+1) rest
                (processVehicles ⟨now, can_move, li, d⟩ (rs li) lane 0 0 lane st).2).1),
         (processLanes now can_move d rs (li+1) rest
            (processVehicles ⟨now, can_move, li, d⟩ (rs li) lane 0 0 lane st).2).2) := rfl

theorem laneWaitingCount_nil (is_red : Bool) (li : ℕ) (lp : Option ℚ) :
    laneWaitingCount is_red li [] lp = 0 := rfl

theorem laneWaitingCount_cons (is_red : Bool) (li : ℕ) (vehicle : Vehicle)
    (rest : List Vehicle) (lp : Option ℚ) :
    laneWaitingCount is_red li (vehicle :: rest) lp
      = (let is_in_zone := decide (|vehicle.position| ≤ INTERSECTION_ZONE)
         let is_right_turner := vehicle.turning_right && decide (li = NUM_LANES - 1)
         let case1 := is_in_zone && is_red && !is_right_turner
           && !vehicle.crossed_intersection
         let case2 : Bool :=
           match lp with
           | some lpv =>
               decide (abs (abs vehicle.position - abs lpv)
                 ≤ MINIMUM_FOLLOW_DISTANCE + max vehicle.length CAR_LENGTH / 2)
           | none => false
         if case1 || (!case1 && case2) then
           1 + laneWaitingCount is_red li rest (some |vehicle.position|)
         else laneWaitingCount is_red li rest lp) := rfl

theorem dirWaitingCount_nil (is_red : Bool) (li : ℕ) :
    dirWaitingCount is_red li [] = 0 := rfl

theorem dirWaitingCount_cons (is_red : Bool) (li : ℕ) (lane : List Vehicle)
    (rest : List (List Vehicle)) :
    dirWaitingCount is_red li (lane :: rest)
      = laneWaitingCount is_red li lane none
        + dirWaitingCount is_red (li+1) rest := rfl

theorem lanePairsOK_nil : lanePairsOK [] = true := rfl

theorem lanePairsOK_one (a : Vehicle) : lanePairsOK [a] = true := rfl

theorem lanePairsOK_cons (a b : Vehicle) (rest : List Vehicle) :
    lanePairsOK (a :: b :: rest)
      = (((a.turning_right && a.crossed_intersection)
          || (b.turning_right && b.crossed_intersection)
          || decide (minFollowPair a b ≤ |a.position - b.position|))
         && lanePairsOK (b :: rest)) := rfl

theorem iterTickAll_zero (s : SimState) : iterTickAll 0 s = s := rfl

theorem iterTickAll_succ (n : ℕ) (s : SimState) :
    iterTickAll (n+1) s = iterTickAll n (tickAll s) := rfl

theorem getLast?_singleton {α : Type} (a : α) : [a].getLast? = some a := rfl

theorem getLast?_pair {α : Type} (a b : α) : [a, b].getLast? = some b := rfl

/-! ## Claim C3: light mutual exclusion -/

/-- C3: at every reachable state of the traffic-light controller the NS
and EW signals are never both green and never both yellow, and exactly one
of the two groups is in {green, yellow} while the other is red. -/
theorem C3_light_mutual_exclusion (p : LightPhase) (hp : ReachablePhase p) :
    ¬(p.states.NS = .green ∧ p.states.EW = .green)
    ∧ ¬(p.states.NS = .yellow ∧ p.states.EW = .yellow)
    ∧ (((p.states.NS = .green ∨ p.states.NS = .yellow) ∧ p.states.EW = .red)
        ∨ ((p.states.EW = .green ∨ p.states.EW = .yellow) ∧ p.states.NS = .red)) := by
  clear hp
  cases p <;> simp [LightPhase.states]

/-- Witness for C3 at the initial phase of the controller. -/
theorem C3_witness :
    ¬(LightPhase.ew_green.states.NS = .green ∧ LightPhase.ew_green.states.EW = .green)
    ∧ ¬(LightPhase.ew_green.states.NS = .yellow ∧ LightPhase.ew_green.states.EW = .yellow)
    ∧ (((LightPhase.ew_green.states.NS = .green ∨ LightPhase.ew_green.states.NS = .yellow)
          ∧ LightPhase.ew_green.states.EW = .red)
        ∨ ((LightPhase.ew_green.states.EW = .green ∨ LightPhase.ew_green.states.EW = .yellow)
          ∧ LightPhase.ew_green.states.NS = .red)) :=
  C3_light_mutual_exclusion _ ReachablePhase.init

/-! ## Claim C10: TrafficStats wait tracking -/

/-- Looking up a key after filtering it out yields nothing. -/
theorem lookup_filter_out (id : ℕ) (l : List (ℕ × ℚ)) :
    List.lookup id (l.filter (fun p => !(p.1 == id))) = none := by
  induction l with
  | nil => rfl
  | cons hd tl ih =>
      rcases hd with ⟨k, v⟩
      by_cases h : k = id
      · subst h
        simpa [List.filter_cons] using ih
      · have hne : (id == k) = false := by simp [Ne.symm h]
        simpa [List.filter_cons, h, List.lookup, hne] using ih

/-- C10: `stop_waiting` on an untracked id is a no-op; `start_waiting` on a
tracked id is a no-op; `stop_waiting` on a tracked id appends exactly the
elapsed wait to the rolling window and removes the id from the tracking
map. -/
theorem C10_wait_tracking (st : TrafficStats) (id : ℕ) (t : ℚ) :
    (List.lookup id st.current_waiting = none → st.stop_waiting id t = st)
    ∧ (∀ t0 : ℚ, List.lookup id st.current_waiting = some t0 →
        st.start_waiting id t = st)
    ∧ (∀ t0 : ℚ, List.lookup id st.current_waiting = some t0 →
        (st.stop_waiting id t).wait_times
            = dequeAppend WAIT_TIMES_MAXLEN st.wait_times (t - t0)
          ∧ List.lookup id (st.stop_waiting id t).current_waiting = none) := by
  refine ⟨fun h => ?_, fun t0 h => ?_, fun t0 h => ?_⟩
  · unfold TrafficStats.stop_waiting
    rw [h]
  · unfold TrafficStats.start_waiting
    rw [h]
    simp
  · unfold TrafficStats.stop_waiting
    rw [h]
    exact ⟨rfl, lookup_filter_out id st.current_waiting⟩

/-- Witness for C10 on a one-entry tracking map. -/
theorem C10_witness :
    (TrafficStats.stop_waiting ⟨0, [], 0, [(3, 2)]⟩ 3 9).wait_times
        = dequeAppend WAIT_TIMES_MAXLEN [] (9 - 2)
      ∧ List.lookup 3 (TrafficStats.stop_waiting ⟨0, [], 0, [(3, 2)]⟩ 3 9).current_waiting
        = none :=
  (C10_wait_tracking ⟨0, [], 0, [(3, 2)]⟩ 3 9).2.2 2 rfl

/-! ## Claim C4: arrival admission control -/

/-- C4: a spawn happens exactly when the global count is within
`TRAFFIC_VOLUME × 1.3` and the lane is empty or its most recent vehicle
has cleared the boundary by more than the minimum follow distance; above
the cap nothing is admitted. -/
theorem C4_spawn_preconditions (num_vehicles : ℕ) (laneList : List Vehicle)
    (idc : ℕ) (d : Direction) (lane : ℕ) (isLong wantsTurn : Bool) :
    ((generate_vehicle_attempt num_vehicles laneList idc d lane isLong wantsTurn).1.isSome
      = true
      ↔ ((num_vehicles : ℚ) ≤ TRAFFIC_VOLUME * (13/10)
          ∧ ∀ last_vehicle ∈ laneList.getLast?,
              MINIMUM_FOLLOW_DISTANCE
                < |(|last_vehicle.position|) - OBSERVATION_ZONE_LENGTH|))
    ∧ (TRAFFIC_VOLUME * (13/10) < (num_vehicles : ℚ) →
        (generate_vehicle_attempt num_vehicles laneList idc d lane isLong wantsTurn).1
          = none) := by
  constructor
  · unfold generate_vehicle_attempt
    by_cases h : (num_vehicles : ℚ) ≤ TRAFFIC_VOLUME * (13/10)
    · rw [if_pos h]
      cases hl : laneList.getLast? with
      | none => simp [h]
      | some last_vehicle =>
          by_cases h2 : MINIMUM_FOLLOW_DISTANCE
              < |(|last_vehicle.position|) - OBSERVATION_ZONE_LENGTH|
          · simp [h, h2, if_pos h2]
          · simp [h, h2, if_neg h2]
    · rw [if_neg h]
      simp [h]
  · intro h
    unfold generate_vehicle_attempt
    rw [if_neg (not_le.mpr h)]

/-- Witness for C4: above the cap no vehicle is admitted. -/
theorem C4_witness :
    (generate_vehicle_attempt 100 [] 0 .north 0 false false).1 = none :=
  (C4_spawn_preconditions 100 [] 0 .north 0 false false).2 (by norm_num [TRAFFIC_VOLUME])

/-! ## Claim C5: crossing eligibility -/

/-- C5: movement through the intersection is allowed exactly when the
vehicle's signal group shows green or the vehicle turns right from the
outermost lane, and a vehicle can only be created turning-right in the
outermost lane. -/
theorem C5_crossing_eligibility :
    (∀ (now : ℚ) (phase : LightPhase) (d : Direction) (lane_idx : ℕ) (v : Vehicle),
        allow_movement ⟨now, can_move_of phase d, lane_idx, d⟩ v = true
          ↔ (lightGroupColor phase.states d = .green
              ∨ (v.turning_right = true ∧ lane_idx = NUM_LANES - 1)))
    ∧ (∀ (id : ℕ) (d : Direction) (lane : ℕ) (isLong wantsTurn : Bool),
        (mkVehicle id d lane isLong wantsTurn).turning_right = true →
          lane = NUM_LANES - 1) := by
  constructor
  · intro now phase d lane_idx v
    unfold allow_movement can_move_of
    cases h : lightGroupColor phase.states d <;> simp [h]
  · intro id d lane isLong wantsTurn h
    unfold mkVehicle at h
    simp at h
    exact h.1

/-- Witness for C5: a vehicle created with a positive turn draw in lane 0
(the outermost lane since `NUM_LANES = 1`) sits in the outermost lane. -/
theorem C5_witness : (0 : ℕ) = NUM_LANES - 1 :=
  C5_crossing_eligibility.2 0 .north 0 false true (by norm_num [mkVehicle, NUM_LANES])

/-! ## Claim C6: id uniqueness -/

/-- C6 counterexample: after one firing of the north generator and one of
the south generator — a reachable state — the two lanes hold distinct
vehicles that share id 0, because each (direction, lane) generator starts
its private `id_counter` at 0. -/
theorem C6_counterexample :
    Reachable twoSpawnState
    ∧ twoSpawnState.vehicles.get .north = [[mkVehicle 0 .north 0 false false]]
    ∧ twoSpawnState.vehicles.get .south = [[mkVehicle 0 .south 0 false false]]
    ∧ (mkVehicle 0 .north 0 false false).id = (mkVehicle 0 .south 0 false false).id
    ∧ mkVehicle 0 .north 0 false false ≠ mkVehicle 0 .south 0 false false := by
  refine ⟨?_, ?_, ?_, rfl, ?_⟩
  · exact Reachable.step (Reachable.step Reachable.init (Step.spawn _ _ _ _))
      (Step.spawn _ _ _ _)
  · norm_num +decide [twoSpawnState, applySpawn, generate_vehicle_attempt, initState,
      totalVehicleCount, DirMap.get, DirMap.set, directionOrder, NUM_LANES,
      TRAFFIC_VOLUME]
  · norm_num +decide [twoSpawnState, applySpawn, generate_vehicle_attempt, initState,
      totalVehicleCount, DirMap.get, DirMap.set, directionOrder, NUM_LANES,
      TRAFFIC_VOLUME]
  · simp [mkVehicle]

/-- One iteration of a generator either spawns the vehicle stamped with the
current counter and bumps the counter, or spawns nothing and keeps it. -/
theorem generate_vehicle_attempt_cases (num_vehicles : ℕ) (laneList : List Vehicle)
    (idc : ℕ) (d : Direction) (lane : ℕ) (isLong wantsTurn : Bool) :
    generate_vehicle_attempt num_vehicles laneList idc d lane isLong wantsTurn
        = (some (mkVehicle idc d lane isLong wantsTurn), idc + 1)
    ∨ generate_vehicle_attempt num_vehicles laneList idc d lane isLong wantsTurn
        = (none, idc) := by
  unfold generate_vehicle_attempt
  by_cases h : (num_vehicles : ℚ) ≤ TRAFFIC_VOLUME * (13/10)
  · rw [if_pos h]
    cases laneList.getLast? with
    | none => exact Or.inl rfl
    | some last_vehicle =>
        dsimp only
        by_cases h2 : MINIMUM_FOLLOW_DISTANCE
            < |(|last_vehicle.position|) - OBSERVATION_ZONE_LENGTH|
        · rw [if_pos h2]
          exact Or.inl rfl
        · rw [if_neg h2]
          exact Or.inr rfl
  · rw [if_neg h]
    exact Or.inr rfl

/-- Ids of a generator run starting at counter `idc` form the contiguous
range `[idc, idc + n)` for some `n`. -/
theorem generatorRun_ids (d : Direction) (lane : ℕ) (ops : List SpawnContext) :
    ∀ idc : ℕ, ∃ n, (generatorRun d lane ops idc).map Vehicle.id = List.range' idc n := by
  induction ops with
  | nil => exact fun idc => ⟨0, rfl⟩
  | cons c rest ih =>
      intro idc
      rcases generate_vehicle_attempt_cases c.num_vehicles c.laneList idc d lane
          c.isLong c.wantsTurn with h | h
      · obtain ⟨n, hn⟩ := ih (idc + 1)
        refine ⟨n + 1, ?_⟩
        simp only [generatorRun, h]
        simp [hn, List.range'_succ, mkVehicle]
      · obtain ⟨n, hn⟩ := ih idc
        refine ⟨n, ?_⟩
        simp only [generatorRun, h]
        exact hn

/-- C6 amended: vehicle ids are unique within one (direction, lane)
generator: no two vehicles spawned by the same generator share an id
(ids are only sequential per generator, not globally). -/
theorem C6_amended (d : Direction) (lane : ℕ) (ops : List SpawnContext) :
    ((generatorRun d lane ops 0).map Vehicle.id).Nodup := by
  obtain ⟨n, hn⟩ := generatorRun_ids d lane ops 0
  rw [hn]
  exact List.nodup_range' 0 n

/-! ## Claim C7: per-tick driver structure -/

/-- C7 counterexample: in a single `update()` call the statistics
recomputation and the clock advance each happen four times — once per
direction, per the indentation of lines 393-394 — not once. -/
theorem C7_counterexample :
    ((applyUpdate (fun _ _ _ => 0) (fun _ => 0) initState).2.count
        TickEvent.statsRecompute = 4
      ∧ (applyUpdate (fun _ _ _ => 0) (fun _ => 0) initState).2.count
        TickEvent.clockStep = 4)
    ∧ (4 : ℕ) ≠ 1 := by
  refine ⟨⟨?_, ?_⟩, by norm_num⟩ <;>
    simp [applyUpdate, updateDirection, directionOrder, List.count_append]

/-- C7 amended: every `update()` call emits, for each direction in order,
that direction's motion pass followed by one `update_stats` recomputation
and one `env.step()` clock advance — so the statistics recomputation and
the clock advance each execute four times per tick, each one after the
motion of its direction. -/
theorem C7_amended (rs : Direction → ℕ → ℕ → ℚ) (δ : Direction → ℚ) (s : SimState) :
    (applyUpdate rs δ s).2
      = [.motion .north, .statsRecompute, .clockStep,
         .motion .south, .statsRecompute, .clockStep,
         .motion .east, .statsRecompute, .clockStep,
         .motion .west, .statsRecompute, .clockStep] := by
  simp [applyUpdate, updateDirection, directionOrder]

/-! ## Claim C2: completion accounting -/

theorem start_waiting_completed_count (st : TrafficStats) (id : ℕ) (t : ℚ) :
    (st.start_waiting id t).completed_count = st.completed_count := by
  unfold TrafficStats.start_waiting
  split_ifs <;> rfl

theorem start_waiting_wait_times (st : TrafficStats) (id : ℕ) (t : ℚ) :
    (st.start_waiting id t).wait_times = st.wait_times := by
  unfold TrafficStats.start_waiting
  split_ifs <;> rfl

theorem stop_waiting_completed_count (st : TrafficStats) (id : ℕ) (t : ℚ) :
    (st.stop_waiting id t).completed_count = st.completed_count := by
  unfold TrafficStats.stop_waiting
  cases List.lookup id st.current_waiting <;> rfl

theorem stop_waiting_wait_times_cases (st : TrafficStats) (id : ℕ) (t : ℚ) :
    (st.stop_waiting id t).wait_times = st.wait_times
    ∨ ∃ wt, (st.stop_waiting id t).wait_times
        = dequeAppend WAIT_TIMES_MAXLEN st.wait_times wt := by
  unfold TrafficStats.stop_waiting
  cases h : List.lookup id st.current_waiting with
  | none => exact Or.inl rfl
  | some t0 => exact Or.inr ⟨t - t0, rfl⟩

/-- When the completion check does not fire, the stats output of a tick is
either untouched (a blocked vehicle) or comes from the post-movement
bookkeeping. -/
theorem tickVehicle_not_completed_stats (ctx : LaneCtx) (r : ℚ) (gi : GateInfo)
    (v : Vehicle) (st : TrafficStats)
    (hc : completedNow (preWaitTrack ctx.now (allow_movement ctx v) v) = false) :
    (tickVehicle ctx r gi v st).2 = st
    ∨ (tickVehicle ctx r gi v st).2
        = (postBookkeeping ctx.now st
            (moveVehicle ctx.dir ctx.lane_idx (base_movement * (4/5 + 2/5 * r))
              (crossUpdate (allow_movement ctx v)
                (preWaitTrack ctx.now (allow_movement ctx v) v))).1).2 := by
  unfold tickVehicle
  rw [if_neg (by simp [hc])]
  dsimp only
  split_ifs <;> simp

theorem postBookkeeping_completed_count (now : ℚ) (st : TrafficStats) (v : Vehicle) :
    (postBookkeeping now st v).2.completed_count = st.completed_count := by
  unfold postBookkeeping
  dsimp only
  split_ifs <;>
    simp [start_waiting_completed_count, stop_waiting_completed_count]

theorem postBookkeeping_wait_times_cases (now : ℚ) (st : TrafficStats) (v : Vehicle) :
    (postBookkeeping now st v).2.wait_times = st.wait_times
    ∨ ∃ wt, (postBookkeeping now st v).2.wait_times
        = dequeAppend WAIT_TIMES_MAXLEN st.wait_times wt := by
  unfold postBookkeeping
  dsimp only
  split_ifs <;>
    simp [start_waiting_wait_times, stop_waiting_wait_times_cases]

/-- C2 counterexample: a right-turning crossed vehicle whose lateral
coordinate reaches the boundary is removed from its lane, but the
direction's `completed_count` stays unchanged — the turn-removal path
(lines 346-347) never increments it. -/
theorem C2_counterexample :
    (tickVehicle ctxRedNorth 0 .front turnVehicle initStats).1 = none
    ∧ (tickVehicle ctxRedNorth 0 .front turnVehicle initStats).2.completed_count
        = initStats.completed_count := by
  constructor <;>
    norm_num [tickVehicle, ctxRedNorth, turnVehicle, allow_movement, preWaitTrack,
      completedNow, crossBlocked, inCrossZone, crossUpdate, followBlocked, stopBlocked,
      moveVehicle, postBookkeeping, Vehicle.update_waiting_status, base_movement,
      laneOffsetPos, OBSERVATION_ZONE_LENGTH, CROSSING_THRESHOLD, STOP_POSITION,
      MINIMUM_FOLLOW_DISTANCE, CAR_LENGTH, AVERAGE_SPEED, NUM_LANES,
      MOVEMENT_THRESHOLD, initStats, TrafficStats.start_waiting,
      TrafficStats.stop_waiting, abs]

/-- C2 amended: a vehicle removed by the completion check increments its
direction's `completed_count` by exactly one and contributes at most one
entry to the wait-time window; any other removal (the turn-boundary path)
leaves `completed_count` unchanged, contributing at most one wait-time
entry via `stop_waiting`.  Each vehicle is processed once per tick, so a
removal happens at most once. -/
theorem C2_amended (ctx : LaneCtx) (r : ℚ) (gi : GateInfo) (v : Vehicle)
    (st : TrafficStats) :
    (completedNow (preWaitTrack ctx.now (allow_movement ctx v) v) = true →
       (tickVehicle ctx r gi v st).1 = none
       ∧ (tickVehicle ctx r gi v st).2.completed_count = st.completed_count + 1
       ∧ ((tickVehicle ctx r gi v st).2.wait_times = st.wait_times
           ∨ ∃ wt, (tickVehicle ctx r gi v st).2.wait_times
               = dequeAppend WAIT_TIMES_MAXLEN st.wait_times wt))
    ∧ ((tickVehicle ctx r gi v st).1 = none →
        completedNow (preWaitTrack ctx.now (allow_movement ctx v) v) = false →
          (tickVehicle ctx r gi v st).2.completed_count = st.completed_count
          ∧ ((tickVehicle ctx r gi v st).2.wait_times = st.wait_times
              ∨ ∃ wt, (tickVehicle ctx r gi v st).2.wait_times
                  = dequeAppend WAIT_TIMES_MAXLEN st.wait_times wt)) := by
  constructor
  · intro hc
    unfold tickVehicle
    rw [if_pos hc]
    refine ⟨rfl, ?_, ?_⟩
    · unfold finalizeCompleted
      cases (preWaitTrack ctx.now (allow_movement ctx v) v).wait_start <;> rfl
    · unfold finalizeCompleted
      cases (preWaitTrack ctx.now (allow_movement ctx v) v).wait_start with
      | none => exact Or.inl rfl
      | some ws => exact Or.inr ⟨ctx.now - ws, rfl⟩
  · intro hnone hc
    rcases tickVehicle_not_completed_stats ctx r gi v st hc with h | h
    · rw [h]
      exact ⟨rfl, Or.inl rfl⟩
    · rw [h]
      exact ⟨postBookkeeping_completed_count _ _ _,
        postBookkeeping_wait_times_cases _ _ _⟩

/-! ## Claim C8: monotonic approach (helper lemmas and master lemma) -/

theorem preWaitTrack_position (now : ℚ) (allow : Bool) (v : Vehicle) :
    (preWaitTrack now allow v).position = v.position := by
  unfold preWaitTrack
  split_ifs <;> rfl

theorem preWaitTrack_crossed (now : ℚ) (allow : Bool) (v : Vehicle) :
    (preWaitTrack now allow v).crossed_intersection = v.crossed_intersection := by
  unfold preWaitTrack
  split_ifs <;> rfl

theorem crossUpdate_position (allow : Bool) (v : Vehicle) :
    (crossUpdate allow v).position = v.position := by
  unfold crossUpdate
  split_ifs <;> rfl

theorem crossUpdate_crossed_mono (allow : Bool) (v : Vehicle)
    (h : v.crossed_intersection = true) :
    (crossUpdate allow v).crossed_intersection = true := by
  unfold crossUpdate
  split_ifs <;> simp [h]

theorem postBookkeeping_fst_position (now : ℚ) (st : TrafficStats) (v : Vehicle) :
    (postBookkeeping now st v).1.position = v.position := by
  unfold postBookkeeping Vehicle.update_waiting_status
  dsimp only
  split_ifs <;> rfl

theorem postBookkeeping_fst_crossed (now : ℚ) (st : TrafficStats) (v : Vehicle) :
    (postBookkeeping now st v).1.crossed_intersection = v.crossed_intersection := by
  unfold postBookkeeping Vehicle.update_waiting_status
  dsimp only
  split_ifs <;> rfl

theorem moveVehicle_straight (dir : Direction) (li : ℕ) (mv : ℚ) (v : Vehicle)
    (h : (v.turning_right && v.crossed_intersection) = false) :
    (moveVehicle dir li mv v).1.position = v.position - dirSign dir * mv
    ∧ (moveVehicle dir li mv v).1.crossed_intersection = v.crossed_intersection
    ∧ (moveVehicle dir li mv v).2 = false := by
  cases dir <;> refine ⟨?_, ?_, ?_⟩ <;> simp [moveVehicle, h, dirSign]

theorem moveVehicle_turning_crossed (dir : Direction) (li : ℕ) (mv : ℚ) (v : Vehicle)
    (h : (v.turning_right && v.crossed_intersection) = true) :
    (moveVehicle dir li mv v).1.crossed_intersection = true := by
  have h2 := (Bool.and_eq_true _ _).mp h
  cases dir <;> simp [moveVehicle, h2.1, h2.2]

/-- Unfolding of `blockedThisTick` into its three gate conditions. -/
theorem blockedThisTick_eq (ctx : LaneCtx) (gi : GateInfo) (v : Vehicle) :
    blockedThisTick ctx gi v
      = (!completedNow (preWaitTrack ctx.now (allow_movement ctx v) v)
          && (crossBlocked (allow_movement ctx v)
                (preWaitTrack ctx.now (allow_movement ctx v) v)
              || (followBlocked gi
                    (crossUpdate (allow_movement ctx v)
                      (preWaitTrack ctx.now (allow_movement ctx v) v))
                  || stopBlocked (allow_movement ctx v)
                      (crossUpdate (allow_movement ctx v)
                        (preWaitTrack ctx.now (allow_movement ctx v) v))))) := rfl

/-- Jitter draws in `[0,1)` keep the per-tick displacement within
`[1/75, 1/50)` (miles per tick at 60 mph nominal). -/
theorem movement_step_bounds (r : ℚ) (hr0 : 0 ≤ r) (hr1 : r < 1) :
    1/75 ≤ base_movement * (4/5 + 2/5 * r)
    ∧ base_movement * (4/5 + 2/5 * r) < 1/50 := by
  unfold base_movement AVERAGE_SPEED
  constructor <;> nlinarith

/-- One displacement of an uncrossed vehicle beyond the crossing threshold
moves it strictly toward the intersection without passing to the far side. -/
theorem approach_step_bound (s p step : ℚ) (hs : s = 1 ∨ s = -1)
    (hsp : 0 ≤ s * p) (hgt : CROSSING_THRESHOLD < |p|)
    (h1 : 1/75 ≤ step) (h2 : step < 1/50) :
    |p - s * step| ≤ |p| ∧ 0 ≤ s * (p - s * step) := by
  have e : CROSSING_THRESHOLD = (1:ℚ)/20 := by
    norm_num [CROSSING_THRESHOLD, NUM_LANES]
  rw [e] at hgt
  rcases hs with hs | hs <;> subst hs
  · rw [one_mul] at hsp
    rw [abs_of_nonneg hsp] at hgt
    rw [one_mul, abs_of_nonneg hsp,
      abs_of_nonneg (by linarith : (0:ℚ) ≤ p - step), one_mul]
    constructor <;> linarith
  · have hp : p ≤ 0 := by linarith
    rw [abs_of_nonpos hp] at hgt
    have he : p - -1 * step = p + step := by ring
    have hps : p + step ≤ 0 := by linarith
    rw [he, abs_of_nonpos hp, abs_of_nonpos hps]
    refine ⟨by linarith, by linarith⟩

/-- Master per-vehicle motion lemma: a vehicle that survives its tick still
uncrossed was uncrossed before, keeps to its approach side, does not move
away from the intersection, and does not move at all when one of the three
gates blocked it. -/
theorem tickVehicle_master (ctx : LaneCtx) (r : ℚ) (gi : GateInfo)
    (v : Vehicle) (st : TrafficStats) (v' : Vehicle) (st' : TrafficStats)
    (hr0 : 0 ≤ r) (hr1 : r < 1)
    (hres : tickVehicle ctx r gi v st = (some v', st'))
    (hnc : v'.crossed_intersection = false) :
    v.crossed_intersection = false
    ∧ (0 ≤ dirSign ctx.dir * v.position →
        |v'.position| ≤ |v.position| ∧ 0 ≤ dirSign ctx.dir * v'.position)
    ∧ (blockedThisTick ctx gi v = true → v'.position = v.position) := by
  unfold tickVehicle at hres
  dsimp only at hres
  by_cases hcomp : completedNow (preWaitTrack ctx.now (allow_movement ctx v) v) = true
  · rw [if_pos hcomp] at hres
    exact absurd (congrArg Prod.fst hres) (by simp)
  · rw [if_neg hcomp] at hres
    by_cases hcb : crossBlocked (allow_movement ctx v)
        (preWaitTrack ctx.now (allow_movement ctx v) v) = true
    · rw [if_pos hcb] at hres
      have hv' : preWaitTrack ctx.now (allow_movement ctx v) v = v' := by
        have h := congrArg Prod.fst hres
        simpa using h
      have hpos : v'.position = v.position := by
        rw [← hv', preWaitTrack_position]
      have hcr : v.crossed_intersection = false := by
        rw [← preWaitTrack_crossed ctx.now (allow_movement ctx v) v, hv', hnc]
      exact ⟨hcr, fun hsp => by rw [hpos]; exact ⟨le_refl _, hsp⟩, fun _ => hpos⟩
    · rw [if_neg hcb] at hres
      by_cases hfb : followBlocked gi (crossUpdate (allow_movement ctx v)
          (preWaitTrack ctx.now (allow_movement ctx v) v)) = true
      · rw [if_pos hfb] at hres
        have hv' : crossUpdate (allow_movement ctx v)
            (preWaitTrack ctx.now (allow_movement ctx v) v) = v' := by
          have h := congrArg Prod.fst hres
          simpa using h
        have hpos : v'.position = v.position := by
          rw [← hv', crossUpdate_position, preWaitTrack_position]
        have hcr : v.crossed_intersection = false := by
          cases h : v.crossed_intersection with
          | false => rfl
          | true =>
              exfalso
              have h1 : (preWaitTrack ctx.now (allow_movement ctx v)
                  v).crossed_intersection = true := by
                rw [preWaitTrack_crossed, h]
              have h2 := crossUpdate_crossed_mono (allow_movement ctx v) _ h1
              rw [hv', hnc] at h2
              exact Bool.false_ne_true h2
        exact ⟨hcr, fun hsp => by rw [hpos]; exact ⟨le_refl _, hsp⟩, fun _ => hpos⟩
      · rw [if_neg hfb] at hres
        by_cases hsb : stopBlocked (allow_movement ctx v)
            (crossUpdate (allow_movement ctx v)
              (preWaitTrack ctx.now (allow_movement ctx v) v)) = true
        · rw [if_pos hsb] at hres
          have hv' : crossUpdate (allow_movement ctx v)
              (preWaitTrack ctx.now (allow_movement ctx v) v) = v' := by
            have h := congrArg Prod.fst hres
            simpa using h
          have hpos : v'.position = v.position := by
            rw [← hv', crossUpdate_position, preWaitTrack_position]
          have hcr : v.crossed_intersection = false := by
            cases h : v.crossed_intersection with
            | false => rfl
            | true =>
                exfalso
                have h1 : (preWaitTrack ctx.now (allow_movement ctx v)
                    v).crossed_intersection = true := by
                  rw [preWaitTrack_crossed, h]
                have h2 := crossUpdate_crossed_mono (allow_movement ctx v) _ h1
                rw [hv', hnc] at h2
                exact Bool.false_ne_true h2
          exact ⟨hcr, fun hsp => by rw [hpos]; exact ⟨le_refl _, hsp⟩, fun _ => hpos⟩
        · rw [if_neg hsb] at hres
          by_cases ht : ((crossUpdate (allow_movement ctx v)
                (preWaitTrack ctx.now (allow_movement ctx v) v)).turning_right
              && (crossUpdate (allow_movement ctx v)
                (preWaitTrack ctx.now (allow_movement ctx v) v)).crossed_intersection)
              = true
          · exfalso
            have hmc := moveVehicle_turning_crossed ctx.dir ctx.lane_idx
              (base_movement * (4/5 + 2/5 * r)) _ ht
            have hfst := congrArg Prod.fst hres
            by_cases hrm : (moveVehicle ctx.dir ctx.lane_idx
                (base_movement * (4/5 + 2/5 * r))
                (crossUpdate (allow_movement ctx v)
                  (preWaitTrack ctx.now (allow_movement ctx v) v))).2 = true
            · rw [hrm] at hfst
              simp at hfst
            · have hrm' : (moveVehicle ctx.dir ctx.lane_idx
                  (base_movement * (4/5 + 2/5 * r))
                  (crossUpdate (allow_movement ctx v)
                    (preWaitTrack ctx.now (allow_movement ctx v) v))).2 = false := by
                simpa using hrm
              rw [hrm'] at hfst
              simp only [Bool.false_eq_true, if_false, Option.some.injEq] at hfst
              have := postBookkeeping_fst_crossed ctx.now st
                (moveVehicle ctx.dir ctx.lane_idx (base_movement * (4/5 + 2/5 * r))
                  (crossUpdate (allow_movement ctx v)
                    (preWaitTrack ctx.now (allow_movement ctx v) v))).1
              rw [hfst, hnc] at this
              rw [hmc] at this
              exact Bool.false_ne_true this
          · have ht' : ((crossUpdate (allow_movement ctx v)
                  (preWaitTrack ctx.now (allow_movement ctx v) v)).turning_right
                && (crossUpdate (allow_movement ctx v)
                  (preWaitTrack ctx.now (allow_movement ctx v) v)).crossed_intersection)
                = false := by
              simpa using ht
            obtain ⟨hp1, hc1, hr2⟩ := moveVehicle_straight ctx.dir ctx.lane_idx
              (base_movement * (4/5 + 2/5 * r)) _ ht'
            have hfst := congrArg Prod.fst hres
            rw [hr2] at hfst
            simp only [Bool.false_eq_true, if_false, Option.some.injEq] at hfst
            have hvpos : v'.position
                = v.position - dirSign ctx.dir * (base_movement * (4/5 + 2/5 * r)) := by
              rw [← hfst, postBookkeeping_fst_position, hp1, crossUpdate_position,
                preWaitTrack_position]
            have hv2c : (crossUpdate (allow_movement ctx v)
                (preWaitTrack ctx.now (allow_movement ctx v) v)).crossed_intersection
                = false := by
              have h := postBookkeeping_fst_crossed ctx.now st
                (moveVehicle ctx.dir ctx.lane_idx (base_movement * (4/5 + 2/5 * r))
                  (crossUpdate (allow_movement ctx v)
                    (preWaitTrack ctx.now (allow_movement ctx v) v))).1
              rw [hfst, hnc] at h
              rw [hc1] at h
              exact h.symm
            have hcr : v.crossed_intersection = false := by
              cases h : v.crossed_intersection with
              | false => rfl
              | true =>
                  exfalso
                  have h1 : (preWaitTrack ctx.now (allow_movement ctx v)
                      v).crossed_intersection = true := by
                    rw [preWaitTrack_crossed, h]
                  have h2 := crossUpdate_crossed_mono (allow_movement ctx v) _ h1
                  rw [hv2c] at h2
                  exact Bool.false_ne_true h2
            have hout : CROSSING_THRESHOLD < |v.position| := by
              by_contra hle
              push_neg at hle
              have hzone : inCrossZone (preWaitTrack ctx.now (allow_movement ctx v) v)
                  = true := by
                unfold inCrossZone
                rw [preWaitTrack_position, preWaitTrack_crossed, hcr]
                simp [hle]
              cases ha : allow_movement ctx v with
              | true =>
                  have : (crossUpdate (allow_movement ctx v)
                      (preWaitTrack ctx.now (allow_movement ctx v) v)).crossed_intersection
                      = true := by
                    unfold crossUpdate
                    rw [if_pos (by rw [hzone, ha]; rfl)]
                  rw [hv2c] at this
                  exact Bool.false_ne_true this
              | false =>
                  have : crossBlocked (allow_movement ctx v)
                      (preWaitTrack ctx.now (allow_movement ctx v) v) = true := by
                    unfold crossBlocked
                    rw [hzone, ha]
                    rfl
                  exact hcb this
            refine ⟨hcr, fun hsp => ?_, fun hb => ?_⟩
            · have hs : dirSign ctx.dir = 1 ∨ dirSign ctx.dir = -1 := by
                cases ctx.dir <;> simp [dirSign]
              obtain ⟨hb1, hb2⟩ := movement_step_bounds r hr0 hr1
              have := approach_step_bound (dirSign ctx.dir) v.position
                (base_movement * (4/5 + 2/5 * r)) hs hsp hout hb1 hb2
              rw [hvpos]
              exact this
            · exfalso
              have hcomp' : completedNow (preWaitTrack ctx.now
                  (allow_movement ctx v) v) = false := by simpa using hcomp
              have hcb' : crossBlocked (allow_movement ctx v)
                  (preWaitTrack ctx.now (allow_movement ctx v) v) = false := by
                simpa using hcb
              have hfb' : followBlocked gi (crossUpdate (allow_movement ctx v)
                  (preWaitTrack ctx.now (allow_movement ctx v) v)) = false := by
                simpa using hfb
              have hsb' : stopBlocked (allow_movement ctx v)
                  (crossUpdate (allow_movement ctx v)
                    (preWaitTrack ctx.now (allow_movement ctx v) v)) = false := by
                simpa using hsb
              rw [blockedThisTick_eq, hcomp', hcb', hfb', hsb'] at hb
              simp at hb

/-- C8: before crossing, a vehicle's distance to the intersection is
non-increasing from one tick to the next, and a tick in which the vehicle
is blocked (crossing hold, follow-distance gate, or red-light stop) leaves
its position exactly unchanged. -/
theorem C8_monotonic_approach (ctx : LaneCtx) (r : ℚ) (gi : GateInfo)
    (v : Vehicle) (st : TrafficStats) (v' : Vehicle) (st' : TrafficStats)
    (hr0 : 0 ≤ r) (hr1 : r < 1)
    (hsign : v.crossed_intersection = false → 0 ≤ dirSign ctx.dir * v.position)
    (hres : tickVehicle ctx r gi v st = (some v', st'))
    (hnc : v'.crossed_intersection = false) :
    |v'.position| ≤ |v.position|
    ∧ (blockedThisTick ctx gi v = true → v'.position = v.position) := by
  obtain ⟨hcr, hmono, hblock⟩ :=
    tickVehicle_master ctx r gi v st v' st' hr0 hr1 hres hnc
  exact ⟨(hmono (hsign hcr)).1, hblock⟩

/-- Witness for C8: a free-flowing northbound vehicle mid-approach moves
strictly toward the intersection in one unblocked tick. -/
theorem C8_witness :
    |freeVehicleMoved.position| ≤ |freeVehicle.position|
    ∧ (blockedThisTick ⟨0, true, 0, .north⟩ .front freeVehicle = true →
        freeVehicleMoved.position = freeVehicle.position) :=
  C8_monotonic_approach ⟨0, true, 0, .north⟩ 0 .front freeVehicle initStats
    freeVehicleMoved initStats (le_refl 0) (by norm_num)
    (fun _ => by norm_num [freeVehicle, dirSign])
    (by norm_num [tickVehicle, freeVehicle, freeVehicleMoved, allow_movement,
      preWaitTrack, completedNow, crossBlocked, inCrossZone, crossUpdate,
      followBlocked, stopBlocked, moveVehicle, postBookkeeping,
      Vehicle.update_waiting_status, base_movement, laneOffsetPos,
      OBSERVATION_ZONE_LENGTH, CROSSING_THRESHOLD, STOP_POSITION,
      MINIMUM_FOLLOW_DISTANCE, CAR_LENGTH, AVERAGE_SPEED, NUM_LANES,
      MOVEMENT_THRESHOLD, initStats, abs])
    rfl

/-- Witness for C2 on the completion path: a crossed vehicle at the far
boundary is removed with `completed_count` bumped by one. -/
theorem C2_witness :
    (tickVehicle ctxRedNorth 0 .front doneVehicle initStats).1 = none
    ∧ (tickVehicle ctxRedNorth 0 .front doneVehicle initStats).2.completed_count
        = initStats.completed_count + 1
    ∧ ((tickVehicle ctxRedNorth 0 .front doneVehicle initStats).2.wait_times
          = initStats.wait_times
        ∨ ∃ wt, (tickVehicle ctxRedNorth 0 .front doneVehicle initStats).2.wait_times
            = dequeAppend WAIT_TIMES_MAXLEN initStats.wait_times wt) :=
  (C2_amended ctxRedNorth 0 .front doneVehicle initStats).1
    (by norm_num [completedNow, preWaitTrack, allow_movement, ctxRedNorth,
      doneVehicle, OBSERVATION_ZONE_LENGTH, MINIMUM_FOLLOW_DISTANCE, CAR_LENGTH, abs])

/-! ## Claim C9: vehicles stay within the observation zone -/

/-- Per-vehicle preservation of the positional invariant. -/
theorem tickVehicle_laneInv (ctx : LaneCtx) (r : ℚ) (gi : GateInfo)
    (v : Vehicle) (st : TrafficStats) (v' : Vehicle) (st' : TrafficStats)
    (hr0 : 0 ≤ r) (hr1 : r < 1)
    (hres : tickVehicle ctx r gi v st = (some v', st'))
    (hinv : laneInv ctx.dir v) : laneInv ctx.dir v' := by
  intro hnc
  obtain ⟨hcr, hmono, _⟩ := tickVehicle_master ctx r gi v st v' st' hr0 hr1 hres hnc
  obtain ⟨hsp, hbound⟩ := hinv hcr
  obtain ⟨h1, h2⟩ := hmono hsp
  exact ⟨h2, le_trans h1 hbound⟩

/-- Unfolding of one step of the per-lane loop. -/
theorem processVehicles_cons (ctx : LaneCtx) (rs : ℕ → ℚ) (v0 : Vehicle)
    (rest : List Vehicle) (i removed : ℕ) (live : List Vehicle)
    (st : TrafficStats) :
    processVehicles ctx rs (v0 :: rest) i removed live st
      = (match tickVehicle ctx (rs i)
            (gateInfoOf (live.set (i - removed)
              (crossUpdate (allow_movement ctx v0)
                (preWaitTrack ctx.now (allow_movement ctx v0) v0))) i) v0 st with
         | (none, st') =>
             processVehicles ctx rs rest (i+1) (removed+1)
               (live.eraseIdx (i - removed)) st'
         | (some v', st') =>
             processVehicles ctx rs rest (i+1) removed
               (live.set (i - removed) v') st') := rfl

/-- The per-lane loop preserves the positional invariant of every vehicle
left in the live lane. -/
theorem processVehicles_laneInv (ctx : LaneCtx) (rs : ℕ → ℚ)
    (hr : ∀ i, 0 ≤ rs i ∧ rs i < 1) :
    ∀ (copy : List Vehicle) (i removed : ℕ) (live : List Vehicle)
      (st : TrafficStats),
      (∀ v ∈ copy, laneInv ctx.dir v) →
      (∀ v ∈ live, laneInv ctx.dir v) →
      ∀ v' ∈ (processVehicles ctx rs copy i removed live st).1,
        laneInv ctx.dir v' := by
  intro copy
  induction copy with
  | nil =>
      intro i removed live st _ hlive v' hv'
      exact hlive v' hv'
  | cons v0 rest ih =>
      intro i removed live st hcopy hlive v' hv'
      rw [processVehicles_cons] at hv'
      rcases htv : tickVehicle ctx (rs i)
          (gateInfoOf (live.set (i - removed)
            (crossUpdate (allow_movement ctx v0)
              (preWaitTrack ctx.now (allow_movement ctx v0) v0))) i) v0 st
        with ⟨o, st2⟩
      rw [htv] at hv'
      cases o with
      | none =>
          exact ih (i+1) (removed+1) _ st2
            (fun u hu => hcopy u (List.mem_cons_of_mem _ hu))
            (fun u hu => hlive u (List.mem_of_mem_eraseIdx hu)) v' hv'
      | some w =>
          refine ih (i+1) removed _ st2
            (fun u hu => hcopy u (List.mem_cons_of_mem _ hu))
            (fun u hu => ?_) v' hv'
          rcases List.mem_or_eq_of_mem_set hu with hu' | hu'
          · exact hlive u hu'
          · subst hu'
            exact tickVehicle_laneInv ctx (rs i) _ v0 st u st2
              (hr i).1 (hr i).2 htv (hcopy v0 (List.mem_cons_self _ _))

/-- The per-direction lane loop preserves the positional invariant. -/
theorem processLanes_laneInv (now : ℚ) (can_move : Bool) (d : Direction)
    (rs : ℕ → ℕ → ℚ) (hr : ∀ li i, 0 ≤ rs li i ∧ rs li i < 1) :
    ∀ (lanes : List (List Vehicle)) (li : ℕ) (st : TrafficStats),
      (∀ lane ∈ lanes, ∀ v ∈ lane, laneInv d v) →
      ∀ lane' ∈ (processLanes now can_move d rs li lanes st).1, ∀ v ∈ lane',
        laneInv d v := by
  intro lanes
  induction lanes with
  | nil =>
      intro li st _ lane' hmem
      simp [processLanes] at hmem
  | cons lane rest ih =>
      intro li st h lane' hmem
      simp only [processLanes] at hmem
      rcases List.mem_cons.mp hmem with hl | hl
      · subst hl
        exact processVehicles_laneInv ⟨now, can_move, li, d⟩ (rs li) (hr li)
          lane 0 0 lane st
          (fun u hu => h lane (List.mem_cons_self _ _) u hu)
          (fun u hu => h lane (List.mem_cons_self _ _) u hu)
      · exact ih (li+1) _
          (fun l hls u hu => h l (List.mem_cons_of_mem _ hls) u hu) lane' hl

/-- Members of `lanes.getD n []` are members of a lane of `lanes`. -/
theorem mem_getD_lane {lanes : List (List Vehicle)} {n : ℕ} {u : Vehicle}
    (hu : u ∈ lanes.getD n []) : ∃ lane ∈ lanes, u ∈ lane := by
  rw [List.getD_eq_getElem?_getD] at hu
  cases h : lanes[n]? with
  | none => rw [h] at hu; simp at hu
  | some lane =>
      rw [h] at hu
      exact ⟨lane, List.getElem?_mem h, hu⟩

/-- Freshly created vehicles sit exactly at the observation-zone boundary
on their approach side. -/
theorem mkVehicle_laneInv (id : ℕ) (d : Direction) (lane : ℕ)
    (isLong wantsTurn : Bool) : laneInv d (mkVehicle id d lane isLong wantsTurn) := by
  intro _
  cases d <;>
    norm_num [mkVehicle, dirSign, OBSERVATION_ZONE_LENGTH, abs]

/-- One direction pass of the driver preserves the whole-state invariant. -/
theorem updateDirection_SimInv (rs : Direction → ℕ → ℕ → ℚ) (δ : Direction → ℚ)
    (acc : SimState × List TickEvent) (d : Direction)
    (hr : validDraws rs) (h : SimInv acc.1) :
    SimInv (updateDirection rs δ acc d).1 := by
  intro d' lane hlane v hv
  unfold updateDirection at hlane
  dsimp only at hlane
  rw [DirMap.get_set] at hlane
  by_cases hd : d' = d
  · subst hd
    rw [if_pos rfl] at hlane
    exact processLanes_laneInv acc.1.now (can_move_of acc.1.phase d') d'
      (rs d') (fun li i => hr d' li i) (acc.1.vehicles.get d') 0
      (acc.1.stats.get d') (fun l hls u hu => h d' l hls u hu) lane hlane v hv
  · rw [if_neg hd] at hlane
    exact h d' lane hlane v hv

/-- A full `update()` call preserves the whole-state invariant. -/
theorem applyUpdate_SimInv (rs : Direction → ℕ → ℕ → ℚ) (δ : Direction → ℚ)
    (s : SimState) (hr : validDraws rs) (h : SimInv s) :
    SimInv (applyUpdate rs δ s).1 := by
  unfold applyUpdate
  have key : ∀ (ds : List Direction) (acc : SimState × List TickEvent),
      SimInv acc.1 → SimInv (List.foldl (updateDirection rs δ) acc ds).1 := by
    intro ds
    induction ds with
    | nil => exact fun acc hacc => hacc
    | cons d rest ih =>
        exact fun acc hacc => ih _ (updateDirection_SimInv rs δ acc d hr hacc)
  exact key directionOrder (s, []) h

/-- A generator firing preserves the whole-state invariant. -/
theorem applySpawn_SimInv (d : Direction) (lane : ℕ) (isLong wantsTurn : Bool)
    (s : SimState) (h : SimInv s) :
    SimInv (applySpawn d lane isLong wantsTurn s) := by
  unfold applySpawn
  dsimp only
  rcases generate_vehicle_attempt_cases (totalVehicleCount s.vehicles)
      ((s.vehicles.get d).getD lane []) ((s.id_counters.get d).getD lane 0)
      d lane isLong wantsTurn
    with hg | hg
  · rw [hg]
    intro d' lane' hlane' v hv
    dsimp only at hlane'
    rw [DirMap.get_set] at hlane'
    by_cases hd : d' = d
    · rw [if_pos hd] at hlane'
      subst hd
      rcases List.mem_or_eq_of_mem_set hlane' with hl | hl
      · exact h d' lane' hl v hv
      · subst hl
        rcases List.mem_append.mp hv with hv' | hv'
        · obtain ⟨l0, hl0, hu⟩ := mem_getD_lane hv'
          exact h d' l0 hl0 v hu
        · rw [List.mem_singleton.mp hv']
          exact mkVehicle_laneInv _ _ _ _ _
    · rw [if_neg hd] at hlane'
      exact h d' lane' hlane' v hv
  · rw [hg]
    exact h

/-- The freshly constructed simulation satisfies the invariant. -/
theorem initState_SimInv : SimInv initState := by
  intro d lane hlane v hv
  cases d <;> simp [initState, NUM_LANES, DirMap.get] at hlane <;>
    subst hlane <;> simp at hv

/-- Every reachable state satisfies the positional invariant. -/
theorem Reachable_SimInv (s : SimState) (hs : Reachable s) : SimInv s := by
  induction hs with
  | init => exact initState_SimInv
  | step hs' hstep ih =>
      cases hstep with
      | tick rs δ hr hδ => exact applyUpdate_SimInv _ _ _ hr ih
      | spawn d lane isLong wantsTurn => exact applySpawn_SimInv _ _ _ _ _ ih
      | light => exact ih

/-- C9: in every reachable state, no uncrossed vehicle sits strictly
beyond the observation-zone boundary: vehicles spawn exactly at the
boundary and can only move toward the intersection before crossing. -/
theorem C9_no_boundary_escape (s : SimState) (hs : Reachable s) :
    ∀ d : Direction, ∀ lane ∈ s.vehicles.get d, ∀ v ∈ lane,
      v.crossed_intersection = false →
        ¬(OBSERVATION_ZONE_LENGTH < |v.position|) :=
  fun d lane hlane v hv hnc =>
    not_lt.mpr ((Reachable_SimInv s hs d lane hlane v hv hnc).2)

/-- Witness for C9 at a reachable two-vehicle state. -/
theorem C9_witness :
    ¬(OBSERVATION_ZONE_LENGTH < |(mkVehicle 0 .north 0 false false).position|) := by
  have hveh : twoSpawnState.vehicles.get .north
      = [[mkVehicle 0 .north 0 false false]] := by
    norm_num +decide [twoSpawnState, applySpawn, generate_vehicle_attempt, initState,
      totalVehicleCount, DirMap.get, DirMap.set, directionOrder, NUM_LANES,
      TRAFFIC_VOLUME]
  have hreach : Reachable twoSpawnState :=
    Reachable.step (Reachable.step Reachable.init (Step.spawn _ _ _ _))
      (Step.spawn _ _ _ _)
  refine C9_no_boundary_escape twoSpawnState hreach .north
    [mkVehicle 0 .north 0 false false] ?_ (mkVehicle 0 .north 0 false false) ?_ rfl
  · rw [hveh]
    exact List.mem_cons_self _ _
  · exact List.mem_cons_self _ _

/-! ## Claim C1: the end-of-tick spacing invariant -/

theorem validDraws_rAll : validDraws rAll := by
  intro d i k
  constructor <;> norm_num [rAll]

theorem validDraws_rMix : validDraws rMix := by
  intro d i k
  dsimp [rMix]
  split_ifs <;> norm_num

theorem reachable_tickAll {s : SimState} (h : Reachable s) :
    Reachable (tickAll s) :=
  h.step (Step.tick rAll (fun _ => 0) validDraws_rAll (fun _ => le_refl 0))

theorem reachable_tickMix {s : SimState} (h : Reachable s) :
    Reachable (tickMix s) :=
  h.step (Step.tick rMix (fun _ => 0) validDraws_rMix (fun _ => le_refl 0))

theorem reachable_iterTickAll (n : ℕ) {s : SimState} (h : Reachable s) :
    Reachable (iterTickAll n s) := by
  induction n generalizing s with
  | zero => exact h
  | succ m ih => exact ih (reachable_tickAll h)

theorem reachable_northSpawn {s : SimState} (h : Reachable s) :
    Reachable (northSpawn s) :=
  h.step (Step.spawn .north 0 false false)

theorem breachState_reachable : Reachable breachState :=
  reachable_tickMix (reachable_tickMix (reachable_tickMix
    (reachable_iterTickAll 16 (reachable_northSpawn
      (reachable_iterTickAll 4 (reachable_northSpawn Reachable.init))))))

set_option maxHeartbeats 10000000 in
/-- C1: the spacing invariant FAILS on the code.  `breachState` is
reachable (24 driver steps from the initial state: two generator firings
and 23 motion ticks under the initial NS-red phase), yet its north lane
ends a tick with two consecutive uncrossed, non-turning vehicles at gap
`0.056 < 0.07`: the follow-distance gate of lines 317-333 checks the gap
*before* the follower moves, so a follower at gap exactly `0.07` behind a
halted leader is allowed to advance a full step. -/
theorem C1_spacing_breach :
    Reachable breachState ∧ spacingOK breachState = false := by
  refine ⟨breachState_reachable, ?_⟩
  norm_num [breachState, spacingOK, lanePairsOK_nil, lanePairsOK_one,
    lanePairsOK_cons, minFollowPair, iterTickAll_zero, iterTickAll_succ,
    tickAll, tickMix, applyUpdate, updateDirection, directionOrder,
    processLanes_nil, processLanes_cons, processVehicles_nil, processVehicles_cons,
    tickVehicle, gateInfoOf, allow_movement, preWaitTrack, completedNow,
    finalizeCompleted, crossBlocked, inCrossZone, crossUpdate, followBlocked,
    stopBlocked, moveVehicle, postBookkeeping, Vehicle.update_waiting_status,
    TrafficStats.start_waiting, TrafficStats.stop_waiting, dequeAppend,
    update_stats, updateStatsDir, laneWaitingCount_nil, laneWaitingCount_cons,
    dirWaitingCount_nil, dirWaitingCount_cons, lightGroupColor,
    LightPhase.states, can_move_of, DirMap.get, DirMap.set, initState, initStats,
    northSpawn, applySpawn, generate_vehicle_attempt, mkVehicle,
    totalVehicleCount, rAll, rMix, base_movement, laneOffsetPos, getLast?_singleton,
    getLast?_pair, NUM_LANES, CAR_LENGTH, OBSERVATION_ZONE_LENGTH,
    MINIMUM_FOLLOW_DISTANCE, CROSSING_THRESHOLD, STOP_POSITION, AVERAGE_SPEED,
    TRAFFIC_VOLUME, INTERSECTION_ZONE, MOVEMENT_THRESHOLD, WAIT_TIMES_MAXLEN, abs]

end Traffic
